import Mathlib

/-!
Verification of the physics/collision core of the js_game_svg repository.

The repository contains four variants of the same platformer core.  We embed
the three variants the claims reference:

* namespace Js   — the primary file jsgame.script.js (first variant in the
  file): parseFloat arithmetic modelled over the rationals, a 0.1 tolerance
  in collision, positions rounded to one decimal on write, a scan that stops
  at the first collision, no distance-validity rule on the clamp, and
  unconditional elevator direction reversal.
* namespace P000 — src/unnamed/part_000: parseInt arithmetic modelled over
  the integers (svg_clean normalises all attributes to integers and all
  velocities in play are integers), closed-interval collision without
  tolerance, a distance-validity rule on the clamp with a 1-unit gap, a scan
  that does not stop after the first collision, and an elevator reversal
  that is skipped when the blocker is the player.
* namespace P001 — src/unnamed/part_001: like part_000 but with a strict
  (<, >) collision comparison and a clamp with no 1-unit gap; only its
  collision predicate is needed by the claims.

Rectangles are taken abstractly as the spec directs: position, size, the
traversable tag, the decorative (pattern-parent) exclusion, the elevator
tag, and the per-object persistent elevator state.  DOM identity is
modelled by the index of the rectangle in the store list; the live
querySelectorAll scan order is the store order.
-/

namespace Game

/-- Movement axis, mirroring the axis parameter that is either "x" or "y". -/
inductive Axis : Type
  | x : Axis
  | y : Axis
deriving DecidableEq, Repr

/-- The other axis (the otherAxis of the oldest variant). -/
def Axis.other : Axis → Axis
  | Axis.x => Axis.y
  | Axis.y => Axis.x

namespace Js

/-- A solid scene object as jsgame.script.js sees it: getBBox position and
size, the class tags consulted by move, and the expando fields the main
loop stores on elevator objects (elevator_vel, is_on_elevator_previous). -/
structure Rect where
  x : ℚ
  y : ℚ
  width : ℚ
  height : ℚ
  traversable : Bool
  decorative : Bool
  elevatorTag : Bool
  elevator_vel : Option ℚ
  on_prev : Bool
deriving DecidableEq

/-- getSVGRect left edge. -/
def left (r : Rect) : ℚ := r.x

/-- getSVGRect right edge: bbox.x + bbox.width. -/
def right (r : Rect) : ℚ := r.x + r.width

/-- getSVGRect top edge. -/
def top (r : Rect) : ℚ := r.y

/-- getSVGRect bottom edge: bbox.y + bbox.height. -/
def bottom (r : Rect) : ℚ := r.y + r.height

/-- The floating-point tolerance added to every comparison in collision. -/
def tolerance : ℚ := 1/10

/-- collision from jsgame.script.js lines 34-81: closed-interval AABB
overlap with a 0.1 tolerance on each comparison. -/
def collision (first second : Rect) : Bool :=
  decide (left first ≤ right second + tolerance) &&
  decide (right first ≥ left second - tolerance) &&
  decide (top first ≤ bottom second + tolerance) &&
  decide (bottom first ≥ top second - tolerance)

/-- Read the coordinate attribute named by the axis. -/
def coord (r : Rect) : Axis → ℚ
  | Axis.x => r.x
  | Axis.y => r.y

/-- Read the size attribute (width for x, height for y). -/
def size (r : Rect) : Axis → ℚ
  | Axis.x => r.width
  | Axis.y => r.height

/-- Write the coordinate attribute named by the axis. -/
def setCoord (r : Rect) (a : Axis) (v : ℚ) : Rect :=
  match a with
  | Axis.x => { r with x := v }
  | Axis.y => { r with y := v }

/-- setAttrValue rounds every written position to one decimal:
Math.round(value * 10) / 10, where JS Math.round is floor(v + 1/2). -/
def round1 (q : ℚ) : ℚ := (⌊q * 10 + 1/2⌋ : ℚ) / 10

/-- The scan loop of move (jsgame.script.js lines 199-224).  The mover is
the rect at index i; e0 carries its fields, pos its current (tentative)
coordinate on the moved axis.  Skips self, traversable rects and rects
nested under a pattern element; on the first colliding rect it clamps and
stops (the break at line 222). -/
def moveScan (i : ℕ) (e0 : Rect) (a : Axis) (before vel pos : ℚ) :
    List (ℕ × Rect) → ℚ × Option ℕ
  | [] => (pos, none)
  | (j, r) :: rest =>
    if j = i then moveScan i e0 a before vel pos rest
    else if r.traversable then moveScan i e0 a before vel pos rest
    else if r.decorative then moveScan i e0 a before vel pos rest
    else if collision r (setCoord e0 a pos) then
      let new_position :=
        if vel < 0 then coord r a + size r a + 1
        else if 0 < vel then coord r a - size e0 a - 1
        else before
      (round1 new_position, some j)
    else moveScan i e0 a before vel pos rest

/-- Result of a move call: the updated store, the actual displacement
after - before, and the blocking rect (by store index) if any. -/
structure MoveResult where
  rects : List Rect
  difference : ℚ
  collided_with : Option ℕ
deriving DecidableEq

/-- move from jsgame.script.js lines 146-234: record before, set the
tentative position before + vel (rounded on write), scan the store for the
first collision and clamp, report after - before and the blocker. -/
def move (rects : List Rect) (i : ℕ) (a : Axis) (vel : ℚ) : MoveResult :=
  match rects.get? i with
  | none => ⟨rects, 0, none⟩
  | some e =>
    let before := coord e a
    let pr := moveScan i e a before vel (round1 (before + vel)) rects.enum
    ⟨rects.set i (setCoord e a pr.1), pr.1 - before, pr.2⟩

/-- The global frame state owned by the orchestrator of jsgame.script.js:
the rectangle store (scan order = document order), the player's index in
the store (the #movable element), the edge-detection and jump state, and
the input latch read once per tick. -/
structure GState where
  rects : List Rect
  player : ℕ
  jumping_previous : Bool
  jump_counter : ℤ
  ground_previous : Option ℕ
  left : Bool
  right : Bool
  jumping : Bool
deriving DecidableEq

/-- Store the elevator_vel expando field on the rect at index j. -/
def setVel (rects : List Rect) (j : ℕ) (v : ℚ) : List Rect :=
  match rects.get? j with
  | none => rects
  | some r => rects.set j { r with elevator_vel := some v }

/-- The elevator velocity used for this tick after the lazy initialisation
(!elevator.elevator_vel is true for an unset field and for 0, and then the
field is set to +1). -/
def elevV0 (rects : List Rect) (j : ℕ) : ℚ :=
  match rects.get? j with
  | none => 1
  | some r =>
    match r.elevator_vel with
    | none => 1
    | some v => if v = 0 then 1 else v

/-- The writes the elevator loop body performs before moving anything: the
lazy elevator_vel initialisation and the is_on_elevator_previous update. -/
def elevInitRects (ground : Option ℕ) (rects : List Rect) (j : ℕ) : List Rect :=
  match rects.get? j with
  | none => rects
  | some r =>
    rects.set j { r with elevator_vel := some (elevV0 rects j),
                         on_prev := decide (ground = some j) }

/-- Player-elevator coupling (jsgame.script.js lines 319-324): whenever the
player's ground this tick is this elevator, move the player along y by the
elevator's velocity, whatever its sign. -/
def elevCoupled (player : ℕ) (ground : Option ℕ) (rects : List Rect) (j : ℕ) :
    List Rect :=
  if ground = some j then
    (move (elevInitRects ground rects j) player Axis.y (elevV0 rects j)).rects
  else elevInitRects ground rects j

/-- The elevator's own move (jsgame.script.js line 327). -/
def elevMoveRes (player : ℕ) (ground : Option ℕ) (rects : List Rect) (j : ℕ) :
    MoveResult :=
  move (elevCoupled player ground rects j) j Axis.y (elevV0 rects j)

/-- One iteration of the elevator loop (jsgame.script.js lines 310-338).
The stopped callback runs when the move is fully blocked with a blocker
recorded; its body reverses the velocity in both of its branches — when the
blocker is the player and when it is anything else. -/
def elevOne (player : ℕ) (ground : Option ℕ) (rects : List Rect) (j : ℕ) :
    List Rect :=
  let v0 := elevV0 rects j
  let mr := elevMoveRes player ground rects j
  let v1 := if mr.difference = 0 ∧ mr.collided_with ≠ none then
              (if mr.collided_with = some player then -v0 else -v0)
            else v0
  setVel mr.rects j v1

/-- Indices of the .elevator-tagged rects, in store order (the
querySelectorAll snapshot taken when the loop starts). -/
def elevIdxs (rects : List Rect) : List ℕ :=
  (List.range rects.length).filter
    (fun j => ((rects.get? j).map Rect.elevatorTag).getD false)

/-- The whole elevator loop of main. -/
def elevLoop (player : ℕ) (ground : Option ℕ) (rects : List Rect) : List Rect :=
  (elevIdxs rects).foldl (fun rs j => elevOne player ground rs j) rects

/-- The gravity move of main (jsgame.script.js line 299): player down by 3. -/
def gravityRes (s : GState) : MoveResult := move s.rects s.player Axis.y 3

/-- This tick's ground: the gravity callback runs only when the move was
fully blocked and a blocker was recorded, and stores that blocker. -/
def groundOf (s : GState) : Option ℕ :=
  if (gravityRes s).difference = 0 then (gravityRes s).collided_with else none

/-- The store after gravity and the elevator loop. -/
def rectsAfterElevators (s : GState) : List Rect :=
  elevLoop s.player (groundOf s) (gravityRes s).rects

/-- The jump trigger: jump intent is a rising edge and ground is non-null. -/
def triggerB (s : GState) : Bool :=
  s.jumping && !s.jumping_previous && (groundOf s).isSome

/-- jump_counter after the trigger branch (jsgame.script.js lines 341-344). -/
def jcSet (s : GState) : ℤ := if triggerB s then 15 else s.jump_counter

/-- The forced-ascent move: while jump_counter > 0 the player moves by -5
(jsgame.script.js lines 347-350). -/
def jumpRes (s : GState) : Option MoveResult :=
  if 0 < jcSet s then some (move (rectsAfterElevators s) s.player Axis.y (-5))
  else none

/-- jump_counter after the decrement branch. -/
def jcAfterDec (s : GState) : ℤ :=
  if 0 < jcSet s then jcSet s - 1 else jcSet s

/-- The store after the jump section. -/
def rectsAfterJump (s : GState) : List Rect :=
  match jumpRes s with
  | some mr => mr.rects
  | none => rectsAfterElevators s

/-- The tick's accumulated vertical displacement y_difference: the gravity
move's return plus the jump move's return (the coupling move's return is
not accumulated in the source either). -/
def yDiff (s : GState) : ℚ :=
  (gravityRes s).difference +
    (match jumpRes s with
     | some mr => mr.difference
     | none => 0)

/-- jump_counter at the end of the tick: the roof-hit branch (lines
352-355) zeroes it when the tick's vertical displacement is exactly 0
while the counter is still positive. -/
def jcFinal (s : GState) : ℤ :=
  if yDiff s = 0 ∧ 0 < jcAfterDec s then 0 else jcAfterDec s

/-- running derived from the input latch (lines 359-371). -/
def runningOf (s : GState) : ℚ :=
  if s.left && s.right then 0
  else if s.left then -1
  else if s.right then 1
  else 0

/-- The store after the horizontal run move (line 373). -/
def runRects (s : GState) : List Rect :=
  (move (rectsAfterJump s) s.player Axis.x (3 * runningOf s)).rects

/-- One whole tick of main (jsgame.script.js lines 284-374). -/
def mainTick (s : GState) : GState :=
  { rects := runRects s
    player := s.player
    jumping_previous := s.jumping
    jump_counter := jcFinal s
    ground_previous := groundOf s
    left := s.left
    right := s.right
    jumping := s.jumping }

/-- n consecutive ticks of the fixed-interval main loop. -/
def ticksN : ℕ → GState → GState
  | 0, s => s
  | n + 1, s => ticksN n (mainTick s)

end Js

/-- A solid scene object in the parseInt variants (part_000, part_001):
svg_clean normalises x, y, width, height to integers and every velocity in
play is an integer, so positions stay integral for the whole session. -/
structure IRect where
  x : ℤ
  y : ℤ
  width : ℤ
  height : ℤ
  traversable : Bool
  decorative : Bool
deriving DecidableEq

/-- Read the coordinate attribute named by the axis. -/
def icoord (r : IRect) : Axis → ℤ
  | Axis.x => r.x
  | Axis.y => r.y

/-- Read the size attribute (width for x, height for y). -/
def isize (r : IRect) : Axis → ℤ
  | Axis.x => r.width
  | Axis.y => r.height

/-- Write the coordinate attribute named by the axis. -/
def isetCoord (r : IRect) (a : Axis) (v : ℤ) : IRect :=
  match a with
  | Axis.x => { r with x := v }
  | Axis.y => { r with y := v }

namespace P000

/-- collision from part_000 lines 1-9: closed-interval comparison
(left <= right, right >= left, and likewise vertically), no tolerance. -/
def collision (first second : IRect) : Bool :=
  decide (first.x ≤ second.x + second.width) &&
  decide (first.x + first.width ≥ second.x) &&
  decide (first.y ≤ second.y + second.height) &&
  decide (first.y + first.height ≥ second.y)

/-- The scan loop of move (part_000 lines 26-55).  No break: the loop
visits every rect; each colliding rect is resolved in turn.  The clamp
candidate (1 + far edge for vel < 0, -1 + near edge - own size for
vel > 0) is accepted only when its distance from before is at most the
requested speed, otherwise new_position stays at its initial value,
before.  State threads (current position, collided_with). -/
def moveScan (i : ℕ) (e0 : IRect) (a : Axis) (before vel : ℤ) :
    List (ℕ × IRect) → ℤ × Option ℕ → ℤ × Option ℕ
  | [], st => st
  | (j, r) :: rest, st =>
    if j = i then moveScan i e0 a before vel rest st
    else if r.traversable then moveScan i e0 a before vel rest st
    else if collision r (isetCoord e0 a st.1) then
      let new_position :=
        if vel < 0 then
          let cand := 1 + icoord r a + isize r a
          if |cand - before| ≤ |vel| then cand else before
        else if 0 < vel then
          let cand := -1 + icoord r a - isize e0 a
          if |cand - before| ≤ |vel| then cand else before
        else before
      moveScan i e0 a before vel rest (new_position, some j)
    else moveScan i e0 a before vel rest st

/-- Result of a part_000 move call. -/
structure IMoveResult where
  rects : List IRect
  difference : ℤ
  collided_with : Option ℕ
deriving DecidableEq

/-- move from part_000 lines 18-62: parseInt arithmetic, tentative
position before + vel, full scan with the distance-validity clamp rule,
returns after - before and the last collided rect. -/
def move (rects : List IRect) (i : ℕ) (a : Axis) (vel : ℤ) : IMoveResult :=
  match rects.get? i with
  | none => ⟨rects, 0, none⟩
  | some e =>
    let before := icoord e a
    let pr := moveScan i e a before vel rects.enum (before + vel, none)
    ⟨rects.set i (isetCoord e a pr.1), pr.1 - before, pr.2⟩

/-- Lazy initialisation of elevator_vel: the JS test (!elevator.elevator_vel)
is true for an unset field and for 0, in which case it is set to +1. -/
def initVel (v : Option ℤ) : ℤ :=
  match v with
  | none => 1
  | some w => if w = 0 then 1 else w

/-- Result of the part_000 elevator section of main (lines 98-113): the
updated store, the elevator velocity stored for the next tick, and the
elevator's own move observables. -/
structure EStep where
  rects : List IRect
  vel : ℤ
  difference : ℤ
  collided_with : Option ℕ
deriving DecidableEq

/-- The elevator section of part_000's main (lines 98-113).  v0 is the
lazily initialised velocity; the player is coupled to the platform only
when v0 < 0 and the player is standing on the elevator; the elevator then
moves by v0, and on a fully blocked move (difference 0, the only case in
which the stopped callback runs) the velocity is negated unless the
blocker is the player (the callback returns early in that case). -/
def elevatorStep (player elevIdx : ℕ) (elevator_vel : Option ℤ)
    (ground : Option ℕ) (rects : List IRect) : EStep :=
  let v0 := initVel elevator_vel
  let is_on := ground = some elevIdx
  let rects1 := if v0 < 0 ∧ is_on then (move rects player Axis.y v0).rects else rects
  let mr := move rects1 elevIdx Axis.y v0
  let v1 := if mr.difference = 0 then
              (if mr.collided_with = some player then v0 else -v0)
            else v0
  ⟨mr.rects, v1, mr.difference, mr.collided_with⟩

end P000

namespace P001

/-- collision from part_001 lines 1-9: strict comparison
(left < right, right > left, and likewise vertically). -/
def collision (first second : IRect) : Bool :=
  decide (first.x < second.x + second.width) &&
  decide (first.x + first.width > second.x) &&
  decide (first.y < second.y + second.height) &&
  decide (first.y + first.height > second.y)

/-- The scan loop of move (part_001 lines 42-72).  Like part_000 — no
break, the distance-validity rule with new_position falling back to
before, the last collider reported — but the clamp candidates carry no
1-unit gap (bare obstacle far edge for vel < 0, bare obstacle near edge
minus the mover's own size for 0 < vel), and rects nested under a
pattern element are skipped in addition to traversable ones. -/
def moveScan (i : ℕ) (e0 : IRect) (a : Axis) (before vel : ℤ) :
    List (ℕ × IRect) → ℤ × Option ℕ → ℤ × Option ℕ
  | [], st => st
  | (j, r) :: rest, st =>
    if j = i then moveScan i e0 a before vel rest st
    else if r.traversable then moveScan i e0 a before vel rest st
    else if r.decorative then moveScan i e0 a before vel rest st
    else if collision r (isetCoord e0 a st.1) then
      let new_position :=
        if vel < 0 then
          let cand := icoord r a + isize r a
          if |cand - before| ≤ |vel| then cand else before
        else if 0 < vel then
          let cand := icoord r a - isize e0 a
          if |cand - before| ≤ |vel| then cand else before
        else before
      moveScan i e0 a before vel rest (new_position, some j)
    else moveScan i e0 a before vel rest st

/-- move from part_001 lines 34-79: parseInt arithmetic, tentative
position before + vel, full scan with the gap-free distance-validity
clamp, returning after - before and the last collided rect. -/
def move (rects : List IRect) (i : ℕ) (a : Axis) (vel : ℤ) :
    P000.IMoveResult :=
  match rects.get? i with
  | none => ⟨rects, 0, none⟩
  | some e =>
    let before := icoord e a
    let pr := moveScan i e a before vel rects.enum (before + vel, none)
    ⟨rects.set i (isetCoord e a pr.1), pr.1 - before, pr.2⟩

end P001

/-! Concrete scenes used to exercise the claims. -/

/-- A 5x5 entity at the origin (parseInt variants). -/
def iEnt : IRect := ⟨0, 0, 5, 5, false, false⟩

/-- A tall 5x60 obstacle enclosing the entity vertically: the clamp
candidate for an upward move lies 11 units away from the start. -/
def iTall : IRect := ⟨0, -50, 5, 60, false, false⟩

/-- A 10x10 mover at the origin (parseInt variants). -/
def iMover : IRect := ⟨0, 0, 10, 10, false, false⟩

/-- First obstacle in the double-collision scene, at x = 25. -/
def iObsA : IRect := ⟨25, 0, 5, 10, false, false⟩

/-- Second obstacle in the double-collision scene, at x = 18: it does not
collide at the tentative position, but does at the position produced by
resolving iObsA. -/
def iObsB : IRect := ⟨18, 0, 2, 10, false, false⟩

/-- part_000 crush scene: player just under a descending elevator. -/
def iCrushP : IRect := ⟨0, 11, 10, 5, false, false⟩

/-- part_000 crush scene: the elevator, one unit above the player. -/
def iCrushE : IRect := ⟨0, 0, 10, 10, false, false⟩

/-- part_000 riding scene: the player standing on the elevator. -/
def iRideP : IRect := ⟨0, 0, 10, 10, false, false⟩

/-- part_000 riding scene: the elevator, one unit below the player. -/
def iRideE : IRect := ⟨0, 11, 10, 20, false, false⟩

/-- Left rectangle of the exactly-touching pair. -/
def iTouchA : IRect := ⟨0, 0, 10, 10, false, false⟩

/-- Right rectangle of the exactly-touching pair: its left edge equals
iTouchA's right edge, and the vertical extents coincide. -/
def iTouchB : IRect := ⟨10, 0, 10, 10, false, false⟩

namespace Js

/-- The player of the jump scene, parameterised by its current height. -/
def jumpP (yv : ℚ) : Rect := ⟨0, yv, 10, 10, false, false, false, none, false⟩

/-- The ground slab of the jump scene: top edge at y = 11, one unit below
the resting player's bottom edge. -/
def jumpG : Rect := ⟨-100, 11, 300, 20, false, false, false, none, false⟩

/-- Jump-scene frame state: player at height yv over the slab, jump intent
held, mid-flight bookkeeping fields as arguments. -/
def jumpState (yv : ℚ) (jc : ℤ) (gp : Option ℕ) : GState :=
  ⟨[jumpP yv, jumpG], 0, true, jc, gp, false, false, true⟩

/-- Jump-scene initial state: grounded player, counter 0, rising edge of
the jump input pending (jumping held, previous false). -/
def jumpW0 : GState := ⟨[jumpP 0, jumpG], 0, false, 0, none, false, false, true⟩

/-- Crush scene: the player one unit below the descending elevator. -/
def crushP : Rect := ⟨0, 11, 10, 5, false, false, false, none, false⟩

/-- Crush scene: the elevator above the player, moving down at +1. -/
def crushE : Rect := ⟨0, 0, 10, 10, false, false, true, some 1, false⟩

/-- Riding scene: the player standing on the elevator. -/
def rideP : Rect := ⟨0, 0, 10, 10, false, false, false, none, false⟩

/-- Riding scene: the elevator one unit below the player, moving down. -/
def rideE : Rect := ⟨0, 11, 10, 20, false, false, true, some 1, false⟩

/-- A 10x10 mover (rationals variant). -/
def qMover : Rect := ⟨0, 0, 10, 10, false, false, false, none, false⟩

/-- A tall obstacle enclosing the mover vertically: the far edge used by
the unconditional clamp is 101 units from the mover's start. -/
def qTall : Rect := ⟨0, -100, 10, 200, false, false, false, none, false⟩

/-- A non-colliding rect placed before the blocker in the scan order. -/
def qFar : Rect := ⟨1000, 1000, 5, 5, false, false, false, none, false⟩

/-- Left rectangle of the exactly-touching pair (rationals). -/
def qTouchA : Rect := ⟨0, 0, 10, 10, false, false, false, none, false⟩

/-- Right rectangle of the exactly-touching pair (rationals). -/
def qTouchB : Rect := ⟨10, 0, 10, 10, false, false, false, none, false⟩

/-- A decorative (pattern-nested) rect covering the touching pair, used to
exercise the scan's skip branches. -/
def qDecor : Rect := ⟨0, 0, 40, 40, false, true, false, none, false⟩

/-- Elevator-invariant scene: falling player plus one elevator whose
persistent velocity is still unset. -/
def velW0 : GState :=
  ⟨[⟨0, 11, 10, 5, false, false, false, none, false⟩,
    ⟨0, 0, 10, 10, false, false, true, none, false⟩],
   0, false, 0, none, false, false, false⟩

/-- The persistent elevator fields of the rect at index j: its stored
velocity and its elevator tag.  Moves never touch these fields. -/
def velTagAt (rects : List Rect) (j : ℕ) : Option (Option ℚ × Bool) :=
  (rects.get? j).map (fun r => (r.elevator_vel, r.elevatorTag))

/-- Index j holds a rect whose stored elevator velocity is exactly +1 or
-1. -/
def velOKat (rects : List Rect) (j : ℕ) : Prop :=
  ∃ r, rects.get? j = some r ∧
    (r.elevator_vel = some 1 ∨ r.elevator_vel = some (-1))

/-- Index j holds a rect whose stored elevator velocity is still unset,
zero, or already +1 / -1 (every state an elevator can be in before its
first processing or after any number of ticks). -/
def velOK0at (rects : List Rect) (j : ℕ) : Prop :=
  ∃ r, rects.get? j = some r ∧
    (r.elevator_vel = none ∨ r.elevator_vel = some 0 ∨
     r.elevator_vel = some 1 ∨ r.elevator_vel = some (-1))

end Js

/-! Generic list-store helpers. -/

theorem lt_length_of_get? {α : Type} {l : List α} {i : ℕ} {x : α}
    (h : l.get? i = some x) : i < l.length := by
  rcases List.get?_eq_some.mp h with ⟨hl, _⟩
  exact hl

theorem exists_get?_of_lt {α : Type} (l : List α) (i : ℕ) (h : i < l.length) :
    ∃ x, l.get? i = some x := by
  refine ⟨l.get ⟨i, h⟩, ?_⟩
  exact List.get?_eq_get h

theorem get?_set_ne {α : Type} (l : List α) (i k : ℕ) (a : α) (h : k ≠ i) :
    (l.set i a).get? k = l.get? k := by
  rw [List.get?_eq_getElem?, List.get?_eq_getElem?,
    List.getElem?_set_ne (fun hh => h hh.symm)]

theorem get?_set_same {α : Type} (l : List α) (i : ℕ) (x a : α)
    (h : l.get? i = some x) : (l.set i a).get? i = some a := by
  rw [List.get?_eq_getElem?, List.getElem?_set_self]
  simp [lt_length_of_get? h]

theorem none_ne_some_nat (k : ℕ) : ¬ (none : Option ℕ) = some k :=
  fun h => Option.noConfusion h

namespace Js

/-! Structural lemmas: a coordinate write touches nothing else. -/

theorem setCoord_width (r : Rect) (a : Axis) (v : ℚ) :
    (setCoord r a v).width = r.width := by cases a <;> rfl

theorem setCoord_height (r : Rect) (a : Axis) (v : ℚ) :
    (setCoord r a v).height = r.height := by cases a <;> rfl

theorem setCoord_elevator_vel (r : Rect) (a : Axis) (v : ℚ) :
    (setCoord r a v).elevator_vel = r.elevator_vel := by cases a <;> rfl

theorem setCoord_elevatorTag (r : Rect) (a : Axis) (v : ℚ) :
    (setCoord r a v).elevatorTag = r.elevatorTag := by cases a <;> rfl

theorem coord_setCoord_other (r : Rect) (a : Axis) (v : ℚ) :
    coord (setCoord r a v) a.other = coord r a.other := by
  cases a <;> rfl

/-! Frame lemmas for the Js mover. -/

theorem move_get?_ne (rects : List Rect) (i : ℕ) (a : Axis) (vel : ℚ)
    (j : ℕ) (h : j ≠ i) :
    (move rects i a vel).rects.get? j = rects.get? j := by
  cases hg : rects.get? i with
  | none => unfold move; rw [hg]
  | some e => unfold move; rw [hg]; exact get?_set_ne rects i j _ h

theorem move_length (rects : List Rect) (i : ℕ) (a : Axis) (vel : ℚ) :
    (move rects i a vel).rects.length = rects.length := by
  cases hg : rects.get? i with
  | none => unfold move; rw [hg]
  | some e => unfold move; rw [hg]; simp

theorem move_velTagAt (rects : List Rect) (i : ℕ) (a : Axis) (vel : ℚ)
    (j : ℕ) : velTagAt (move rects i a vel).rects j = velTagAt rects j := by
  by_cases hji : j = i
  · subst hji
    cases hg : rects.get? j with
    | none =>
      unfold velTagAt move
      rw [hg]
      show Option.map _ (rects.get? j) = _
      rw [hg]
    | some e =>
      unfold velTagAt move
      rw [hg]
      show ((rects.set j _).get? j).map _ = _
      rw [get?_set_same rects j e _ hg]
      simp [setCoord_elevator_vel, setCoord_elevatorTag]
  · unfold velTagAt
    rw [move_get?_ne rects i a vel j hji]

/-! Frame lemmas for the expando-field writes of the elevator loop. -/

theorem setVel_get?_ne (rects : List Rect) (j : ℕ) (v : ℚ) (k : ℕ)
    (h : k ≠ j) : (setVel rects j v).get? k = rects.get? k := by
  cases hg : rects.get? j with
  | none => unfold setVel; rw [hg]
  | some r => unfold setVel; rw [hg]; exact get?_set_ne rects j k _ h

theorem setVel_get?_self (rects : List Rect) (j : ℕ) (v : ℚ) (r : Rect)
    (h : rects.get? j = some r) :
    (setVel rects j v).get? j = some { r with elevator_vel := some v } := by
  unfold setVel
  rw [h]
  exact get?_set_same rects j r _ h

theorem elevInitRects_get?_ne (g : Option ℕ) (rects : List Rect) (j k : ℕ)
    (h : k ≠ j) : (elevInitRects g rects j).get? k = rects.get? k := by
  cases hg : rects.get? j with
  | none => unfold elevInitRects; rw [hg]
  | some r => unfold elevInitRects; rw [hg]; exact get?_set_ne rects j k _ h

theorem elevInitRects_velTagAt_self (g : Option ℕ) (rects : List Rect)
    (j : ℕ) (r : Rect) (h : rects.get? j = some r) :
    velTagAt (elevInitRects g rects j) j =
      some (some (elevV0 rects j), r.elevatorTag) := by
  unfold velTagAt elevInitRects
  rw [h]
  show ((rects.set j _).get? j).map _ = _
  rw [get?_set_same rects j r _ h]
  rfl

theorem elevInitRects_length (g : Option ℕ) (rects : List Rect) (j : ℕ) :
    (elevInitRects g rects j).length = rects.length := by
  cases hg : rects.get? j with
  | none => unfold elevInitRects; rw [hg]
  | some r => unfold elevInitRects; rw [hg]; simp

theorem elevCoupled_velTagAt (p : ℕ) (g : Option ℕ) (rects : List Rect)
    (j k : ℕ) : velTagAt (elevCoupled p g rects j) k =
      velTagAt (elevInitRects g rects j) k := by
  unfold elevCoupled
  split
  · exact move_velTagAt _ p Axis.y _ k
  · rfl

theorem elevCoupled_length (p : ℕ) (g : Option ℕ) (rects : List Rect)
    (j : ℕ) : (elevCoupled p g rects j).length = rects.length := by
  unfold elevCoupled
  split
  · rw [move_length, elevInitRects_length]
  · exact elevInitRects_length g rects j

theorem elevMoveRes_length (p : ℕ) (g : Option ℕ) (rects : List Rect)
    (j : ℕ) : (elevMoveRes p g rects j).rects.length = rects.length := by
  unfold elevMoveRes
  rw [move_length, elevCoupled_length]

theorem elevMoveRes_velTagAt (p : ℕ) (g : Option ℕ) (rects : List Rect)
    (j k : ℕ) : velTagAt (elevMoveRes p g rects j).rects k =
      velTagAt (elevCoupled p g rects j) k := by
  unfold elevMoveRes
  exact move_velTagAt _ j Axis.y _ k

theorem elevOne_velTagAt_ne (p : ℕ) (g : Option ℕ) (rects : List Rect)
    (j k : ℕ) (h : k ≠ j) :
    velTagAt (elevOne p g rects j) k = velTagAt rects k := by
  unfold elevOne
  have h1 : velTagAt (setVel (elevMoveRes p g rects j).rects j
      (if (elevMoveRes p g rects j).difference = 0 ∧
          (elevMoveRes p g rects j).collided_with ≠ none then
        (if (elevMoveRes p g rects j).collided_with = some p then
          -elevV0 rects j else -elevV0 rects j)
       else elevV0 rects j)) k =
      velTagAt (elevMoveRes p g rects j).rects k := by
    unfold velTagAt
    rw [setVel_get?_ne _ j _ k h]
  rw [h1, elevMoveRes_velTagAt, elevCoupled_velTagAt]
  unfold velTagAt
  rw [elevInitRects_get?_ne g rects j k h]

/-! Transfer lemmas: the elevator-state predicates only look at the
persistent fields, so they transport along velTagAt equalities. -/

theorem velOKat_of_velTagAt {x y : List Rect} {k : ℕ}
    (h : velTagAt x k = velTagAt y k) (hy : velOKat y k) : velOKat x k := by
  rcases hy with ⟨r, hr, hv⟩
  unfold velTagAt at h
  rw [hr] at h
  rcases Option.map_eq_some'.mp h with ⟨r2, hr2, hf⟩
  rcases Prod.mk.injEq .. ▸ hf with ⟨hv2, _⟩
  exact ⟨r2, hr2, by rw [hv2]; exact hv⟩

theorem velOK0at_of_velTagAt {x y : List Rect} {k : ℕ}
    (h : velTagAt x k = velTagAt y k) (hy : velOK0at y k) : velOK0at x k := by
  rcases hy with ⟨r, hr, hv⟩
  unfold velTagAt at h
  rw [hr] at h
  rcases Option.map_eq_some'.mp h with ⟨r2, hr2, hf⟩
  rcases Prod.mk.injEq .. ▸ hf with ⟨hv2, _⟩
  exact ⟨r2, hr2, by rw [hv2]; exact hv⟩

/-- The lazily initialised velocity is +1 or -1 whenever the stored field
is unset, zero or already a unit. -/
theorem elevV0_unit (rects : List Rect) (j : ℕ) (r : Rect)
    (hg : rects.get? j = some r)
    (hv : r.elevator_vel = none ∨ r.elevator_vel = some 0 ∨
      r.elevator_vel = some 1 ∨ r.elevator_vel = some (-1)) :
    elevV0 rects j = 1 ∨ elevV0 rects j = -1 := by
  unfold elevV0
  rw [hg]
  rcases hv with h | h | h | h <;> simp [h]

/-- After its loop iteration, an elevator's stored velocity is a unit:
it is the lazily initialised unit velocity or its negation. -/
theorem elevOne_velOKat (p : ℕ) (g : Option ℕ) (rects : List Rect) (j : ℕ)
    (h : velOK0at rects j) : velOKat (elevOne p g rects j) j := by
  rcases h with ⟨r, hg, hv⟩
  have hv0 := elevV0_unit rects j r hg hv
  have hlen : j < (elevMoveRes p g rects j).rects.length := by
    rw [elevMoveRes_length]
    exact lt_length_of_get? hg
  rcases exists_get?_of_lt _ j hlen with ⟨r2, hr2⟩
  unfold elevOne velOKat
  refine ⟨_, setVel_get?_self _ j _ r2 hr2, ?_⟩
  show some _ = some 1 ∨ some _ = some (-1)
  rcases hv0 with h1 | h1 <;> rw [h1] <;> split <;> simp

theorem elevFold_velOK (p : ℕ) (g : Option ℕ) (L : List ℕ) :
    ∀ rects : List Rect, L.Nodup →
      (∀ j ∈ L, velOK0at rects j) →
      (∀ j ∈ L, velOKat (L.foldl (fun rs k => elevOne p g rs k) rects) j) ∧
      (∀ k, k ∉ L →
        velTagAt (L.foldl (fun rs k => elevOne p g rs k) rects) k =
          velTagAt rects k) := by
  induction L with
  | nil =>
    intro rects _ _
    refine ⟨?_, ?_⟩
    · intro j hj; cases hj
    · intro k _; rfl
  | cons j L' ih =>
    intro rects hnd h0
    have hnd' : L'.Nodup := (List.nodup_cons.mp hnd).2
    have hjn : j ∉ L' := (List.nodup_cons.mp hnd).1
    have h0' : ∀ j' ∈ L', velOK0at (elevOne p g rects j) j' := by
      intro j' hj'
      have hne : j' ≠ j := fun he => hjn (he ▸ hj')
      exact velOK0at_of_velTagAt (elevOne_velTagAt_ne p g rects j j' hne)
        (h0 j' (List.mem_cons_of_mem j hj'))
    rcases ih (elevOne p g rects j) hnd' h0' with ⟨ih1, ih2⟩
    refine ⟨?_, ?_⟩
    · intro k hk
      rcases List.mem_cons.mp hk with he | hm
      · subst he
        exact velOKat_of_velTagAt (ih2 k hjn)
          (elevOne_velOKat p g rects k (h0 k (List.mem_cons_self k L')))
      · exact ih1 k hm
    · intro k hk
      have hk1 : k ∉ L' := fun hh => hk (List.mem_cons_of_mem j hh)
      have hkj : k ≠ j := fun he => hk (he ▸ List.mem_cons_self j L')
      show velTagAt (L'.foldl _ (elevOne p g rects j)) k = velTagAt rects k
      rw [ih2 k hk1, elevOne_velTagAt_ne p g rects j k hkj]

theorem mem_elevIdxs (rects : List Rect) (j : ℕ) :
    j ∈ elevIdxs rects ↔
      ∃ r, rects.get? j = some r ∧ r.elevatorTag = true := by
  unfold elevIdxs
  rw [List.mem_filter, List.mem_range]
  constructor
  · rintro ⟨hlt, htag⟩
    rcases exists_get?_of_lt rects j hlt with ⟨r, hr⟩
    refine ⟨r, hr, ?_⟩
    rw [hr] at htag
    simpa using htag
  · rintro ⟨r, hr, htag⟩
    refine ⟨lt_length_of_get? hr, ?_⟩
    rw [hr]
    simpa using htag

theorem elevIdxs_nodup (rects : List Rect) : (elevIdxs rects).Nodup :=
  (List.nodup_range rects.length).filter _

theorem elevLoop_spec (p : ℕ) (g : Option ℕ) (rects : List Rect)
    (h0 : ∀ j ∈ elevIdxs rects, velOK0at rects j) :
    (∀ j ∈ elevIdxs rects, velOKat (elevLoop p g rects) j) ∧
    (∀ k, k ∉ elevIdxs rects →
      velTagAt (elevLoop p g rects) k = velTagAt rects k) :=
  elevFold_velOK p g (elevIdxs rects) rects (elevIdxs_nodup rects) h0

theorem rectsAfterJump_velTagAt (s : GState) (k : ℕ) :
    velTagAt (rectsAfterJump s) k = velTagAt (rectsAfterElevators s) k := by
  by_cases hj : 0 < jcSet s
  · simp only [rectsAfterJump, jumpRes, if_pos hj]
    exact move_velTagAt _ s.player Axis.y _ k
  · simp only [rectsAfterJump, jumpRes, if_neg hj]

theorem mainTick_velTagAt (s : GState) (k : ℕ) :
    velTagAt (mainTick s).rects k = velTagAt (rectsAfterElevators s) k := by
  show velTagAt (runRects s) k = _
  unfold runRects
  rw [move_velTagAt, rectsAfterJump_velTagAt]

theorem gravity_velTagAt (s : GState) (k : ℕ) :
    velTagAt (gravityRes s).rects k = velTagAt s.rects k := by
  unfold gravityRes
  exact move_velTagAt _ s.player Axis.y _ k

/-- The scan of the Js mover resolves only the first collision: whatever
follows the first non-skipped colliding rect in the scan order has no
influence on the outcome, which is exactly the clamp against that rect. -/
theorem moveScan_first_hit (i : ℕ) (e0 : Rect) (a : Axis)
    (before vel pos : ℚ) :
    ∀ (pre : List (ℕ × Rect)) (j : ℕ) (r : Rect) (rest : List (ℕ × Rect)),
      (∀ q ∈ pre, q.1 = i ∨ q.2.traversable = true ∨ q.2.decorative = true ∨
        collision q.2 (setCoord e0 a pos) = false) →
      j ≠ i → r.traversable = false → r.decorative = false →
      collision r (setCoord e0 a pos) = true →
      moveScan i e0 a before vel pos (pre ++ (j, r) :: rest) =
        (round1 (if vel < 0 then coord r a + size r a + 1
                 else if 0 < vel then coord r a - size e0 a - 1
                 else before), some j) := by
  intro pre
  induction pre with
  | nil =>
    intro j r rest _ hj ht hd hc
    show moveScan i e0 a before vel pos ((j, r) :: rest) = _
    unfold moveScan
    rw [if_neg hj, if_neg (by simp [ht]), if_neg (by simp [hd]), if_pos hc]
  | cons q pre' ih =>
    intro j r rest hpre hj ht hd hc
    rcases q with ⟨k, s⟩
    have hq := hpre (k, s) (List.mem_cons_self (k, s) pre')
    have htail : ∀ q ∈ pre', q.1 = i ∨ q.2.traversable = true ∨
        q.2.decorative = true ∨ collision q.2 (setCoord e0 a pos) = false :=
      fun q hq2 => hpre q (List.mem_cons_of_mem (k, s) hq2)
    show moveScan i e0 a before vel pos ((k, s) :: (pre' ++ (j, r) :: rest)) = _
    unfold moveScan
    by_cases h1 : k = i
    · rw [if_pos h1]
      exact ih j r rest htail hj ht hd hc
    · rw [if_neg h1]
      by_cases h2 : s.traversable = true
      · rw [if_pos h2]
        exact ih j r rest htail hj ht hd hc
      · rw [if_neg h2]
        by_cases h3 : s.decorative = true
        · rw [if_pos h3]
          exact ih j r rest htail hj ht hd hc
        · rw [if_neg h3]
          have h4 : collision s (setCoord e0 a pos) = false := by
            rcases hq with h | h | h | h
            · exact absurd h h1
            · exact absurd h h2
            · exact absurd h h3
            · exact h
          rw [if_neg (by simp [h4])]
          exact ih j r rest htail hj ht hd hc

end Js

namespace P000

/-! part_000 mover lemmas. -/

/-- Invariant of the part_000 scan: every position it ever writes is the
initial position, the pre-move position before, or a clamp candidate the
distance-validity guard has accepted — so its distance from before never
exceeds the requested speed. -/
theorem moveScan_bound (i : ℕ) (e0 : IRect) (a : Axis) (before vel : ℤ) :
    ∀ (l : List (ℕ × IRect)) (st : ℤ × Option ℕ),
      |st.1 - before| ≤ |vel| →
      |(moveScan i e0 a before vel l st).1 - before| ≤ |vel| := by
  intro l
  induction l with
  | nil => intro st h; exact h
  | cons q rest ih =>
    intro st h
    rcases q with ⟨j, r⟩
    show |(moveScan i e0 a before vel ((j, r) :: rest) st).1 - before| ≤ |vel|
    unfold moveScan
    by_cases h1 : j = i
    · rw [if_pos h1]
      exact ih st h
    · rw [if_neg h1]
      by_cases h2 : r.traversable = true
      · rw [if_pos h2]
        exact ih st h
      · rw [if_neg h2]
        by_cases h3 : collision r (isetCoord e0 a st.1) = true
        · rw [if_pos h3]
          apply ih
          show |(if vel < 0 then _ else if 0 < vel then _ else before) - before|
            ≤ |vel|
          rcases lt_trichotomy vel 0 with hv | hv | hv
          · rw [if_pos hv]
            split
            · next hval => exact hval
            · simp
          · rw [if_neg (by rw [hv]; exact lt_irrefl 0),
              if_neg (by rw [hv]; exact lt_irrefl 0)]
            simp
          · rw [if_neg (by exact not_lt_of_gt hv), if_pos hv]
            dsimp only
            split
            · next hval => exact hval
            · simp
        · rw [if_neg h3]
          exact ih st h

/-- The part_000 mover never reports a displacement larger in magnitude
than the requested velocity. -/
theorem move_diff_bound (rects : List IRect) (i : ℕ) (a : Axis) (vel : ℤ) :
    |(move rects i a vel).difference| ≤ |vel| := by
  cases hg : rects.get? i with
  | none => unfold move; rw [hg]; simp
  | some e =>
    unfold move
    rw [hg]
    exact moveScan_bound i e a (icoord e a) vel rects.enum
      (icoord e a + vel, none) (by simp)

/-- The part_000 mover writes only the mover's own entry in the store. -/
theorem imove_get?_ne (rects : List IRect) (i : ℕ) (a : Axis) (vel : ℤ)
    (j : ℕ) (h : j ≠ i) :
    (move rects i a vel).rects.get? j = rects.get? j := by
  cases hg : rects.get? i with
  | none => unfold move; rw [hg]
  | some e => unfold move; rw [hg]; exact get?_set_ne rects i j _ h

theorem imove_length (rects : List IRect) (i : ℕ) (a : Axis) (vel : ℤ) :
    (move rects i a vel).rects.length = rects.length := by
  cases hg : rects.get? i with
  | none => unfold move; rw [hg]
  | some e => unfold move; rw [hg]; simp

end P000

/-! Structural lemmas for the integer rect. -/

theorem isetCoord_width (r : IRect) (a : Axis) (v : ℤ) :
    (isetCoord r a v).width = r.width := by cases a <;> rfl

theorem isetCoord_height (r : IRect) (a : Axis) (v : ℤ) :
    (isetCoord r a v).height = r.height := by cases a <;> rfl

theorem icoord_isetCoord_other (r : IRect) (a : Axis) (v : ℤ) :
    icoord (isetCoord r a v) a.other = icoord r a.other := by
  cases a <;> rfl

/-! The claim theorems. -/

/-- C8: the jsgame.script.js collision predicate is symmetric — for every
pair of rectangles, collision(A, B) returns the same boolean as
collision(B, A), including under the 0.1 tolerance applied to every
comparison. -/
theorem C8_collision_symmetric (A B : Js.Rect) :
    Js.collision A B = Js.collision B A := by
  rw [Bool.eq_iff_iff]
  simp only [Js.collision, Js.left, Js.right, Js.top, Js.bottom,
    Bool.and_eq_true, decide_eq_true_eq, ge_iff_le]
  constructor
  · rintro ⟨⟨⟨h1, h2⟩, h3⟩, h4⟩
    refine ⟨⟨⟨?_, ?_⟩, ?_⟩, ?_⟩ <;> linarith
  · rintro ⟨⟨⟨h1, h2⟩, h3⟩, h4⟩
    refine ⟨⟨⟨?_, ?_⟩, ?_⟩, ?_⟩ <;> linarith

/-- C7 amended theorem: under the closed-interval comparison of
jsgame.script.js (with its 0.1 tolerance) and of part_000, two boxes of
nonnegative width that exactly touch on the x axis (the first box's right
edge equal to the second box's left edge) while overlapping on the y axis
collide, in both argument orders.  (part_001's strict comparison does not
satisfy this; see the counterexample.) -/
theorem C7_touching_collides :
    (∀ A B : Js.Rect, 0 ≤ A.width → 0 ≤ B.width →
      A.x + A.width = B.x →
      A.y ≤ B.y + B.height → B.y ≤ A.y + A.height →
      Js.collision A B = true ∧ Js.collision B A = true) ∧
    (∀ A B : IRect, 0 ≤ A.width → 0 ≤ B.width →
      A.x + A.width = B.x →
      A.y ≤ B.y + B.height → B.y ≤ A.y + A.height →
      P000.collision A B = true ∧ P000.collision B A = true) := by
  constructor
  · intro A B hw1 hw2 hx hy1 hy2
    constructor <;>
    · simp only [Js.collision, Js.left, Js.right, Js.top, Js.bottom,
        Js.tolerance, Bool.and_eq_true, decide_eq_true_eq, ge_iff_le]
      refine ⟨⟨⟨?_, ?_⟩, ?_⟩, ?_⟩ <;> linarith
  · intro A B hw1 hw2 hx hy1 hy2
    constructor <;>
    · simp only [P000.collision, Bool.and_eq_true, decide_eq_true_eq,
        ge_iff_le]
      refine ⟨⟨⟨?_, ?_⟩, ?_⟩, ?_⟩ <;> linarith

/-- C7 witness: the concrete exactly-touching pairs do collide under the
jsgame.script.js and part_000 predicates. -/
theorem C7_touching_collides_witness :
    Js.collision Js.qTouchA Js.qTouchB = true ∧
    P000.collision iTouchA iTouchB = true :=
  ⟨(C7_touching_collides.1 Js.qTouchA Js.qTouchB
      (by norm_num [Js.qTouchA]) (by norm_num [Js.qTouchB])
      (by norm_num [Js.qTouchA, Js.qTouchB])
      (by norm_num [Js.qTouchA, Js.qTouchB])
      (by norm_num [Js.qTouchA, Js.qTouchB])).1,
   (C7_touching_collides.2 iTouchA iTouchB (by decide) (by decide)
      (by decide) (by decide) (by decide)).1⟩

/-- C7 counterexample: the pair touches on x (right edge = left edge) and
overlaps on y, yet part_001's strict comparison reports no collision — the
claim that collision returns true for every exactly-touching pair is false
for the part_001 variant the claim also cites. -/
theorem C7_claim_cex :
    iTouchA.x + iTouchA.width = iTouchB.x ∧
    iTouchA.y ≤ iTouchB.y + iTouchB.height ∧
    iTouchB.y ≤ iTouchA.y + iTouchA.height ∧
    P001.collision iTouchA iTouchB = false := by decide

/-- C4 amended theorem: in part_000 (and part_001), whose clamp is guarded
by the distance-validity rule, every move call reports a displacement of
magnitude at most the requested speed.  (jsgame.script.js clamps without
the distance check and can report a larger displacement; see the
counterexample.) -/
theorem C4_p000_displacement_bounded (rects : List IRect) (i : ℕ)
    (a : Axis) (vel : ℤ) :
    |(P000.move rects i a vel).difference| ≤ |vel| := by
  cases hg : rects.get? i with
  | none => unfold P000.move; rw [hg]; simp
  | some e =>
    unfold P000.move
    rw [hg]
    exact P000.moveScan_bound i e a (icoord e a) vel rects.enum
      (icoord e a + vel, none) (by simp)

/-- C4 counterexample: jsgame.script.js, mover qMover overlapping the tall
obstacle qTall at its tentative position, requested velocity -1: the
unconditional clamp to the obstacle's far edge reports displacement 101,
of magnitude far greater than the requested 1. -/
theorem C4_claim_cex :
    (Js.move [Js.qMover, Js.qTall] 0 Axis.y (-1)).difference = 101 ∧
    ¬ |(Js.move [Js.qMover, Js.qTall] 0 Axis.y (-1)).difference| ≤
        |(-1 : ℚ)| := by
  have h : (Js.move [Js.qMover, Js.qTall] 0 Axis.y (-1)).difference = 101 := by
    norm_num [Js.move, Js.moveScan, Js.collision, Js.setCoord, Js.coord,
      Js.size, Js.left, Js.right, Js.top, Js.bottom, Js.tolerance, Js.round1,
      Js.qMover, Js.qTall, List.enum, List.enumFrom]
  refine ⟨h, ?_⟩
  rw [h]
  norm_num

/-- C1 amended theorem (single-obstacle call, nonzero velocity, obstacle
colliding at the tentative position).  part_000: the written coordinate
is the gapped clamp candidate (far edge + 1 for vel < 0, near edge - own
size - 1 for 0 < vel) exactly when the candidate is within the requested
distance of before; otherwise the coordinate is reset to before (zero
displacement), not left at the tentative before + vel.  part_001: the
same distance rule with the gap-free candidates (bare far edge for
vel < 0, bare near edge minus own size for 0 < vel), with the same reset
to before when invalid.  jsgame.script.js writes its gap-1 clamp
candidate unconditionally (rounded to one decimal), with no distance
check at all. -/
theorem C1_clamp_distance_rule :
    (∀ (e r : IRect) (a : Axis) (vel : ℤ), r.traversable = false →
      vel < 0 →
      P000.collision r (isetCoord e a (icoord e a + vel)) = true →
      (P000.move [e, r] 0 a vel).rects.get? 0 = some (isetCoord e a
        (if |1 + icoord r a + isize r a - icoord e a| ≤ |vel|
         then 1 + icoord r a + isize r a else icoord e a))) ∧
    (∀ (e r : IRect) (a : Axis) (vel : ℤ), r.traversable = false →
      0 < vel →
      P000.collision r (isetCoord e a (icoord e a + vel)) = true →
      (P000.move [e, r] 0 a vel).rects.get? 0 = some (isetCoord e a
        (if |-1 + icoord r a - isize e a - icoord e a| ≤ |vel|
         then -1 + icoord r a - isize e a else icoord e a))) ∧
    (∀ (e r : IRect) (a : Axis) (vel : ℤ), r.traversable = false →
      r.decorative = false → vel < 0 →
      P001.collision r (isetCoord e a (icoord e a + vel)) = true →
      (P001.move [e, r] 0 a vel).rects.get? 0 = some (isetCoord e a
        (if |icoord r a + isize r a - icoord e a| ≤ |vel|
         then icoord r a + isize r a else icoord e a))) ∧
    (∀ (e r : IRect) (a : Axis) (vel : ℤ), r.traversable = false →
      r.decorative = false → 0 < vel →
      P001.collision r (isetCoord e a (icoord e a + vel)) = true →
      (P001.move [e, r] 0 a vel).rects.get? 0 = some (isetCoord e a
        (if |icoord r a - isize e a - icoord e a| ≤ |vel|
         then icoord r a - isize e a else icoord e a))) ∧
    (∀ (e r : Js.Rect) (a : Axis) (vel : ℚ), r.traversable = false →
      r.decorative = false → vel < 0 →
      Js.collision r (Js.setCoord e a (Js.round1 (Js.coord e a + vel)))
        = true →
      (Js.move [e, r] 0 a vel).rects.get? 0 = some (Js.setCoord e a
        (Js.round1 (Js.coord r a + Js.size r a + 1)))) ∧
    (∀ (e r : Js.Rect) (a : Axis) (vel : ℚ), r.traversable = false →
      r.decorative = false → 0 < vel →
      Js.collision r (Js.setCoord e a (Js.round1 (Js.coord e a + vel)))
        = true →
      (Js.move [e, r] 0 a vel).rects.get? 0 = some (Js.setCoord e a
        (Js.round1 (Js.coord r a - Js.size e a - 1)))) := by
  refine ⟨?_, ?_, ?_, ?_, ?_, ?_⟩
  · intro e r a vel ht hvel hc
    show some (isetCoord e a (P000.moveScan 0 e a (icoord e a) vel
      [(0, e), (1, r)] (icoord e a + vel, none)).1) = _
    unfold P000.moveScan
    rw [if_pos rfl]
    unfold P000.moveScan
    rw [if_neg (by norm_num), if_neg (by simp [ht]), if_pos hc]
    unfold P000.moveScan
    rw [if_pos hvel]
  · intro e r a vel ht hvel hc
    show some (isetCoord e a (P000.moveScan 0 e a (icoord e a) vel
      [(0, e), (1, r)] (icoord e a + vel, none)).1) = _
    unfold P000.moveScan
    rw [if_pos rfl]
    unfold P000.moveScan
    rw [if_neg (by norm_num), if_neg (by simp [ht]), if_pos hc]
    unfold P000.moveScan
    rw [if_neg (by exact not_lt_of_gt hvel), if_pos hvel]
  · intro e r a vel ht hd hvel hc
    show some (isetCoord e a (P001.moveScan 0 e a (icoord e a) vel
      [(0, e), (1, r)] (icoord e a + vel, none)).1) = _
    unfold P001.moveScan
    rw [if_pos rfl]
    unfold P001.moveScan
    rw [if_neg (by norm_num), if_neg (by simp [ht]), if_neg (by simp [hd]),
      if_pos hc]
    unfold P001.moveScan
    rw [if_pos hvel]
  · intro e r a vel ht hd hvel hc
    show some (isetCoord e a (P001.moveScan 0 e a (icoord e a) vel
      [(0, e), (1, r)] (icoord e a + vel, none)).1) = _
    unfold P001.moveScan
    rw [if_pos rfl]
    unfold P001.moveScan
    rw [if_neg (by norm_num), if_neg (by simp [ht]), if_neg (by simp [hd]),
      if_pos hc]
    unfold P001.moveScan
    rw [if_neg (by exact not_lt_of_gt hvel), if_pos hvel]
  · intro e r a vel ht hd hvel hc
    show some (Js.setCoord e a (Js.moveScan 0 e a (Js.coord e a) vel
      (Js.round1 (Js.coord e a + vel)) [(0, e), (1, r)]).1) = _
    unfold Js.moveScan
    rw [if_pos rfl]
    unfold Js.moveScan
    rw [if_neg (by norm_num), if_neg (by simp [ht]), if_neg (by simp [hd]),
      if_pos hc, if_pos hvel]
  · intro e r a vel ht hd hvel hc
    show some (Js.setCoord e a (Js.moveScan 0 e a (Js.coord e a) vel
      (Js.round1 (Js.coord e a + vel)) [(0, e), (1, r)]).1) = _
    unfold Js.moveScan
    rw [if_pos rfl]
    unfold Js.moveScan
    rw [if_neg (by norm_num), if_neg (by simp [ht]), if_neg (by simp [hd]),
      if_pos hc, if_neg (by exact not_lt_of_gt hvel), if_pos hvel]

/-- C1 witness.  part_000: entity iEnt moving up by 3 into the tall
obstacle — gapped candidate 11 is farther than 3, so the coordinate is
reset to before (the entity entry is returned unchanged).  part_001: the
same scene — the gap-free candidate 10 is also farther than 3, so the
coordinate is reset to before as well.  jsgame.script.js: mover into
qTall with vel -1 — the candidate 101 is written although it is 101
units away. -/
theorem C1_clamp_distance_rule_witness :
    (P000.move [iEnt, iTall] 0 Axis.y (-3)).rects.get? 0 = some iEnt ∧
    (P001.move [iEnt, iTall] 0 Axis.y (-3)).rects.get? 0 = some iEnt ∧
    (Js.move [Js.qMover, Js.qTall] 0 Axis.y (-1)).rects.get? 0 =
      some (Js.setCoord Js.qMover Axis.y 101) := by
  refine ⟨?_, ?_, ?_⟩
  · have h := C1_clamp_distance_rule.1 iEnt iTall Axis.y (-3)
      (by decide) (by decide) (by decide)
    rw [h]
    decide
  · have h := C1_clamp_distance_rule.2.2.1 iEnt iTall Axis.y (-3)
      (by decide) (by decide) (by decide) (by decide)
    rw [h]
    decide
  · have h := C1_clamp_distance_rule.2.2.2.2.1 Js.qMover Js.qTall Axis.y
      (-1) (by decide) (by decide) (by norm_num)
      (by norm_num [Js.collision, Js.setCoord, Js.coord, Js.left, Js.right,
        Js.top, Js.bottom, Js.tolerance, Js.round1, Js.qMover, Js.qTall])
    rw [h]
    norm_num [Js.round1, Js.coord, Js.size, Js.qMover, Js.qTall]

/-- C1 counterexample.  part_000, entity iEnt, obstacle iTall, vel = -3:
an obstacle is found colliding (collided_with = index 1) and the clamp
candidate is invalid, and the entity's coordinate is reset to before
(entry unchanged, displacement 0) — not left at the tentative position
before + vel = -3 as the claim states. -/
theorem C1_claim_cex :
    (P000.move [iEnt, iTall] 0 Axis.y (-3)).collided_with = some 1 ∧
    (P000.move [iEnt, iTall] 0 Axis.y (-3)).difference = 0 ∧
    ¬ (P000.move [iEnt, iTall] 0 Axis.y (-3)).rects.get? 0 =
        some (isetCoord iEnt Axis.y (0 + -3)) := by decide

/-- C2 amended theorem.  jsgame.script.js: the scan stops at the first
collision (the break); whatever rects follow the first non-skipped
colliding rect have no influence — the scan returns the clamp against
that rect for every possible tail.  (part_000 and part_001 have no break
and keep resolving; see the counterexample.) -/
theorem C2_first_collision_only (i : ℕ) (e0 : Js.Rect) (a : Axis)
    (before vel pos : ℚ) (pre : List (ℕ × Js.Rect)) (j : ℕ) (r : Js.Rect)
    (rest : List (ℕ × Js.Rect))
    (hpre : ∀ q ∈ pre, q.1 = i ∨ q.2.traversable = true ∨
      q.2.decorative = true ∨
      Js.collision q.2 (Js.setCoord e0 a pos) = false)
    (hj : j ≠ i) (ht : r.traversable = false) (hd : r.decorative = false)
    (hc : Js.collision r (Js.setCoord e0 a pos) = true) :
    Js.moveScan i e0 a before vel pos (pre ++ (j, r) :: rest) =
      (Js.round1 (if vel < 0 then Js.coord r a + Js.size r a + 1
                  else if 0 < vel then Js.coord r a - Js.size e0 a - 1
                  else before), some j) :=
  Js.moveScan_first_hit i e0 a before vel pos pre j r rest hpre hj ht hd hc

/-- C2 witness: a concrete scan with one skipped rect before the blocker
and one more rect after it stops at the blocker (index 7) and clamps the
falling mover to 0. -/
theorem C2_first_collision_only_witness :
    Js.moveScan 0 Js.qMover Axis.y 0 3 3
      [(5, Js.qFar), (7, Js.jumpG), (9, Js.qTall)] = (0, some 7) := by
  have h := C2_first_collision_only 0 Js.qMover Axis.y 0 3 3
    [(5, Js.qFar)] 7 Js.jumpG [(9, Js.qTall)]
    (by
      intro q hq
      rcases List.mem_singleton.mp hq with rfl
      right; right; right
      norm_num [Js.collision, Js.setCoord, Js.coord, Js.left, Js.right,
        Js.top, Js.bottom, Js.tolerance, Js.qMover, Js.qFar])
    (by decide) (by decide) (by decide)
    (by norm_num [Js.collision, Js.setCoord, Js.coord, Js.left, Js.right,
      Js.top, Js.bottom, Js.tolerance, Js.qMover, Js.jumpG])
  rw [show ([(5, Js.qFar)] ++ (7, Js.jumpG) :: [(9, Js.qTall)]) =
    [(5, Js.qFar), (7, Js.jumpG), (9, Js.qTall)] from rfl] at h
  rw [h]
  norm_num [Js.round1, Js.coord, Js.size, Js.jumpG, Js.qMover]

/-- C2 counterexample.  part_000 has no break: with store
[iMover, iObsA, iObsB] and vel 20, the first collision (iObsA, clamping to
14) does not stop the scan — iObsB is then examined at the clamped
position, found colliding, and resolved to 7, so the reported blocker is
the second rect and the outcome differs from the store that ends at the
first collider. -/
theorem C2_claim_cex :
    (P000.move [iMover, iObsA, iObsB] 0 Axis.x 20).difference = 7 ∧
    (P000.move [iMover, iObsA, iObsB] 0 Axis.x 20).collided_with =
      some 2 ∧
    (P000.move [iMover, iObsA] 0 Axis.x 20).difference = 14 := by decide

/-- C3 amended theorem.  jsgame.script.js: when the elevator's own move is
fully blocked with a blocker recorded, the stored velocity for the next
tick is the negation of this tick's (lazily initialised) velocity — both
branches of the callback negate, so this holds whether or not the blocker
is the player.  part_000: when the blocker is the player the callback
returns early and the velocity is left unchanged. -/
theorem C3_blocked_reversal :
    (∀ (p : ℕ) (g : Option ℕ) (rects : List Js.Rect) (j k : ℕ)
      (r : Js.Rect), rects.get? j = some r →
      (Js.elevMoveRes p g rects j).difference = 0 →
      (Js.elevMoveRes p g rects j).collided_with = some k →
      ((Js.elevOne p g rects j).get? j).map Js.Rect.elevator_vel =
        some (some (-(Js.elevV0 rects j)))) ∧
    (∀ (p ei : ℕ) (v : Option ℤ) (g : Option ℕ) (rects : List IRect),
      (P000.elevatorStep p ei v g rects).difference = 0 →
      (P000.elevatorStep p ei v g rects).collided_with = some p →
      (P000.elevatorStep p ei v g rects).vel = P000.initVel v) := by
  constructor
  · intro p g rects j k r hg hd hc
    have hlen : j < (Js.elevMoveRes p g rects j).rects.length := by
      rw [Js.elevMoveRes_length]
      exact lt_length_of_get? hg
    rcases exists_get?_of_lt _ j hlen with ⟨r2, hr2⟩
    unfold Js.elevOne
    rw [Js.setVel_get?_self _ j _ r2 hr2]
    have hcond : (Js.elevMoveRes p g rects j).difference = 0 ∧
        (Js.elevMoveRes p g rects j).collided_with ≠ none := by
      refine ⟨hd, ?_⟩
      rw [hc]
      exact Option.some_ne_none k
    rw [if_pos hcond]
    split <;> rfl
  · intro p ei v g rects hd hc
    unfold P000.elevatorStep at hd hc ⊢
    dsimp only at hd hc ⊢
    rw [if_pos hd, if_pos hc]

/-- C3 witness.  jsgame.script.js crush scene: the descending elevator is
fully blocked by the player below it, and its stored velocity becomes -1
(the negation) — the blocker being the player does not prevent reversal.
part_000 crush scene: the same geometry leaves the velocity at +1. -/
theorem C3_blocked_reversal_witness :
    ((Js.elevOne 0 none [Js.crushP, Js.crushE] 1).get? 1).map
      Js.Rect.elevator_vel = some (some (-1)) ∧
    (P000.elevatorStep 0 1 (some 1) none [iCrushP, iCrushE]).vel = 1 := by
  constructor
  · have h := C3_blocked_reversal.1 0 none [Js.crushP, Js.crushE] 1 0
      Js.crushE (by decide)
      (by norm_num [Js.elevMoveRes, Js.elevCoupled, Js.elevInitRects,
        Js.elevV0, Js.move, Js.moveScan, Js.collision, Js.setCoord,
        Js.coord, Js.size, Js.left, Js.right, Js.top, Js.bottom,
        Js.tolerance, Js.round1, Js.crushP, Js.crushE, List.enum,
        List.enumFrom, none_ne_some_nat])
      (by norm_num [Js.elevMoveRes, Js.elevCoupled, Js.elevInitRects,
        Js.elevV0, Js.move, Js.moveScan, Js.collision, Js.setCoord,
        Js.coord, Js.size, Js.left, Js.right, Js.top, Js.bottom,
        Js.tolerance, Js.round1, Js.crushP, Js.crushE, List.enum,
        List.enumFrom, none_ne_some_nat])
    rw [h]
    norm_num [Js.elevV0, Js.crushE]
  · have h := C3_blocked_reversal.2 0 1 (some 1) none [iCrushP, iCrushE]
      (by decide) (by decide)
    rw [h]
    decide

/-- C3 counterexample.  part_000 crush scene: the elevator's move is fully
blocked (difference 0) with the blocker reported as the player (index 0),
yet the velocity for the following tick is still +1, not the negation -1
the claim requires for every blocker. -/
theorem C3_claim_cex :
    (P000.elevatorStep 0 1 (some 1) none [iCrushP, iCrushE]).difference
      = 0 ∧
    (P000.elevatorStep 0 1 (some 1) none [iCrushP, iCrushE]).collided_with
      = some 0 ∧
    (P000.elevatorStep 0 1 (some 1) none [iCrushP, iCrushE]).vel = 1 ∧
    ¬ (P000.elevatorStep 0 1 (some 1) none [iCrushP, iCrushE]).vel = -1 := by
  decide

/-- C6 amended theorem.  jsgame.script.js: when this tick's ground is the
elevator, the player's store entry after the elevator's loop iteration is
exactly the result of the coupling move called with the elevator's
velocity — for every velocity value, positive or negative.  part_000: the
coupling is guarded by elevator_vel < 0, so with a non-negative velocity
the whole elevator step leaves the player's entry untouched. -/
theorem C6_player_coupling :
    (∀ (p : ℕ) (rects : List Js.Rect) (j : ℕ), p ≠ j →
      (Js.elevOne p (some j) rects j).get? p =
        (Js.move (Js.elevInitRects (some j) rects j) p Axis.y
          (Js.elevV0 rects j)).rects.get? p) ∧
    (∀ (p ei : ℕ) (v : Option ℤ) (g : Option ℕ) (rects : List IRect),
      p ≠ ei → ¬ P000.initVel v < 0 →
      (P000.elevatorStep p ei v g rects).rects.get? p = rects.get? p) := by
  constructor
  · intro p rects j hpj
    unfold Js.elevOne
    rw [Js.setVel_get?_ne _ j _ p hpj]
    unfold Js.elevMoveRes
    rw [Js.move_get?_ne _ j Axis.y _ p hpj]
    unfold Js.elevCoupled
    rw [if_pos rfl]
  · intro p ei v g rects hpe hv
    unfold P000.elevatorStep
    dsimp only
    rw [if_neg (fun hh => hv hh.1)]
    exact P000.imove_get?_ne rects ei Axis.y _ p hpe

/-- C6 witness.  jsgame.script.js riding scene with a descending elevator
(velocity +1): the player's entry after the elevator step equals the
coupling move's result — the coupling move is performed although the
velocity is positive.  part_000 riding scene: the player entry comes back
unchanged. -/
theorem C6_player_coupling_witness :
    (Js.elevOne 0 (some 1) [Js.rideP, Js.rideE] 1).get? 0 =
      (Js.move (Js.elevInitRects (some 1) [Js.rideP, Js.rideE] 1) 0 Axis.y
        (Js.elevV0 [Js.rideP, Js.rideE] 1)).rects.get? 0 ∧
    (P000.elevatorStep 0 1 (some 1) (some 1) [iRideP, iRideE]).rects.get? 0
      = some iRideP := by
  constructor
  · exact C6_player_coupling.1 0 [Js.rideP, Js.rideE] 1 (by decide)
  · rw [C6_player_coupling.2 0 1 (some 1) (some 1) [iRideP, iRideE]
      (by decide) (by decide)]
    decide

/-- C6 counterexample.  part_000 riding scene: the ground is the elevator
(index 1) whose velocity is +1, so the claim requires the player to be
moved from y = 0 to y = 1 — but the elevator step leaves the player's
entry at y = 0 (the coupling only runs for negative velocities). -/
theorem C6_claim_cex :
    (P000.elevatorStep 0 1 (some 1) (some 1) [iRideP, iRideE]).rects.get? 0
      = some iRideP ∧
    ¬ (P000.elevatorStep 0 1 (some 1) (some 1)
        [iRideP, iRideE]).rects.get? 0 =
        some (isetCoord iRideP Axis.y (0 + 1)) := by decide

/-- C10: a move call writes only the moved entity's coordinate on the
given axis: every other rect's store entry is unchanged, and the mover
keeps its width, its height and its other-axis coordinate — in
jsgame.script.js and in part_000 alike. -/
theorem C10_move_frame :
    (∀ (rects : List Js.Rect) (i : ℕ) (a : Axis) (vel : ℚ),
      (∀ j, j ≠ i → (Js.move rects i a vel).rects.get? j = rects.get? j) ∧
      (∀ e e2, rects.get? i = some e →
        (Js.move rects i a vel).rects.get? i = some e2 →
        e2.width = e.width ∧ e2.height = e.height ∧
        Js.coord e2 a.other = Js.coord e a.other)) ∧
    (∀ (rects : List IRect) (i : ℕ) (a : Axis) (vel : ℤ),
      (∀ j, j ≠ i → (P000.move rects i a vel).rects.get? j = rects.get? j) ∧
      (∀ e e2, rects.get? i = some e →
        (P000.move rects i a vel).rects.get? i = some e2 →
        e2.width = e.width ∧ e2.height = e.height ∧
        icoord e2 a.other = icoord e a.other)) := by
  constructor
  · intro rects i a vel
    refine ⟨fun j hj => Js.move_get?_ne rects i a vel j hj, ?_⟩
    intro e e2 hg hg2
    have heq : (Js.move rects i a vel).rects.get? i =
        some (Js.setCoord e a (Js.moveScan i e a (Js.coord e a) vel
          (Js.round1 (Js.coord e a + vel)) rects.enum).1) := by
      unfold Js.move
      rw [hg]
      exact get?_set_same rects i e _ hg
    rw [heq] at hg2
    have he2 := Option.some_inj.mp hg2
    subst he2
    exact ⟨Js.setCoord_width e a _, Js.setCoord_height e a _,
      Js.coord_setCoord_other e a _⟩
  · intro rects i a vel
    refine ⟨fun j hj => P000.imove_get?_ne rects i a vel j hj, ?_⟩
    intro e e2 hg hg2
    have heq : (P000.move rects i a vel).rects.get? i =
        some (isetCoord e a (P000.moveScan i e a (icoord e a) vel
          rects.enum (icoord e a + vel, none)).1) := by
      unfold P000.move
      rw [hg]
      exact get?_set_same rects i e _ hg
    rw [heq] at hg2
    have he2 := Option.some_inj.mp hg2
    subst he2
    exact ⟨isetCoord_width e a _, isetCoord_height e a _,
      icoord_isetCoord_other e a _⟩

/-- C10 witness: in the concrete tall-obstacle scenes the untouched
obstacle entry (index 1) is returned unchanged by the move call, in both
variants. -/
theorem C10_move_frame_witness :
    (Js.move [Js.qMover, Js.qTall] 0 Axis.y (-1)).rects.get? 1 =
      some Js.qTall ∧
    (P000.move [iEnt, iTall] 0 Axis.y (-3)).rects.get? 1 = some iTall :=
  ⟨(C10_move_frame.1 [Js.qMover, Js.qTall] 0 Axis.y (-1)).1 1 (by decide),
   (C10_move_frame.2 [iEnt, iTall] 0 Axis.y (-3)).1 1 (by decide)⟩


/-- C9: in a jsgame.script.js tick, if every elevator-tagged rect's stored
elevator_vel is unset, zero, +1 or -1 beforehand, then after the tick every
elevator-tagged rect's stored elevator_vel is exactly +1 or -1: the loop
lazily installs +1 for an unset or zero field and every later update is a
negation, so the magnitude never changes and is never zero. -/
theorem C9_elevator_vel_unit (s : Js.GState)
    (h0 : ∀ r ∈ s.rects, r.elevatorTag = true →
      r.elevator_vel = none ∨ r.elevator_vel = some 0 ∨
      r.elevator_vel = some 1 ∨ r.elevator_vel = some (-1)) :
    ∀ r2 ∈ (Js.mainTick s).rects, r2.elevatorTag = true →
      r2.elevator_vel = some 1 ∨ r2.elevator_vel = some (-1) := by
  intro r2 hmem htag
  rcases List.mem_iff_get?.mp hmem with ⟨j, hj⟩
  have hvt2 : Js.velTagAt (Js.rectsAfterElevators s) j =
      some (r2.elevator_vel, true) := by
    rw [← Js.mainTick_velTagAt s j]
    unfold Js.velTagAt
    rw [hj]
    simp [htag]
  have hpre : ∀ j2 ∈ Js.elevIdxs (Js.gravityRes s).rects,
      Js.velOK0at (Js.gravityRes s).rects j2 := by
    intro j2 hj2
    rcases (Js.mem_elevIdxs (Js.gravityRes s).rects j2).mp hj2
      with ⟨r3, hr3, htag3⟩
    have hvt : Js.velTagAt (Js.gravityRes s).rects j2 =
        Js.velTagAt s.rects j2 := Js.gravity_velTagAt s j2
    unfold Js.velTagAt at hvt
    rw [hr3] at hvt
    rcases Option.map_eq_some'.mp hvt.symm with ⟨r4, hr4, hf⟩
    rcases Prod.mk.injEq .. ▸ hf with ⟨hv4, ht4⟩
    refine ⟨r3, hr3, ?_⟩
    rw [← hv4]
    exact h0 r4 (List.get?_mem hr4) (by rw [ht4]; exact htag3)
  have hloop := Js.elevLoop_spec s.player (Js.groundOf s)
    (Js.gravityRes s).rects hpre
  by_cases hjin : j ∈ Js.elevIdxs (Js.gravityRes s).rects
  · rcases hloop.1 j hjin with ⟨r5, hr5, hv5⟩
    have hvt5 : Js.velTagAt (Js.rectsAfterElevators s) j =
        some (r5.elevator_vel, r5.elevatorTag) := by
      show Js.velTagAt (Js.elevLoop s.player (Js.groundOf s)
        (Js.gravityRes s).rects) j = _
      unfold Js.velTagAt
      rw [hr5]
      simp
    rw [hvt5] at hvt2
    rcases Prod.mk.injEq .. ▸ (Option.some_inj.mp hvt2) with ⟨hv25, _⟩
    rw [hv25] at hv5
    exact hv5
  · have hRj : Js.velTagAt (Js.gravityRes s).rects j =
        some (r2.elevator_vel, true) := by
      rw [← hloop.2 j hjin]
      exact hvt2
    unfold Js.velTagAt at hRj
    rcases Option.map_eq_some'.mp hRj with ⟨r6, hr6, hf6⟩
    rcases Prod.mk.injEq .. ▸ hf6 with ⟨_, ht6⟩
    exact absurd ((Js.mem_elevIdxs (Js.gravityRes s).rects j).mpr
      ⟨r6, hr6, ht6⟩) hjin

/-- C9 witness: in the concrete one-elevator scene whose stored velocity
is still unset, after one tick the stored velocity is a unit. -/
theorem C9_elevator_vel_unit_witness :
    ((Js.mainTick Js.velW0).rects.get? 1).map Js.Rect.elevator_vel =
      some (some 1) ∨
    ((Js.mainTick Js.velW0).rects.get? 1).map Js.Rect.elevator_vel =
      some (some (-1)) := by
  have hval : (Js.mainTick Js.velW0).rects.get? 1 =
      some ⟨0, 1, 10, 10, false, false, true, some 1, false⟩ := by
    norm_num [Js.mainTick, Js.runRects, Js.rectsAfterJump, Js.jumpRes,
      Js.jcFinal, Js.jcAfterDec, Js.jcSet, Js.triggerB, Js.yDiff,
      Js.rectsAfterElevators, Js.elevLoop, Js.elevIdxs, Js.groundOf,
      Js.gravityRes, Js.runningOf, Js.elevOne, Js.elevMoveRes,
      Js.elevCoupled, Js.elevInitRects, Js.elevV0, Js.setVel,
      Js.move, Js.moveScan, Js.collision, Js.setCoord, Js.coord, Js.size,
      Js.left, Js.right, Js.top, Js.bottom, Js.tolerance, Js.round1,
      Js.velW0, List.enum, List.enumFrom, List.range_succ,
      List.filter_append, List.filter_cons, List.filter_nil,
      none_ne_some_nat]
  rcases C9_elevator_vel_unit Js.velW0 (by decide)
      ⟨0, 1, 10, 10, false, false, true, some 1, false⟩
      (List.get?_mem hval) rfl with h | h
  · left
    rw [hval]
    simp
  · left
    rw [hval]
    simp

/-- C5 amended theorem: the jump-counter state machine of a
jsgame.script.js tick.  The counter never goes negative; a trigger tick
(rising edge of the jump input with ground present) sets the counter to 15
and decrements it in the same tick, ending the tick at 14 (or 0 on an
immediate roof hit); a non-trigger tick with a positive counter decrements
it by exactly 1 unless the tick's total vertical displacement is 0, which
zeroes it; a non-trigger tick with counter 0 leaves it 0; the counter can
reach the set value 15 only through an actual trigger (or by already being
15); the trigger is exactly a rising edge with a non-none ground; and
while the counter is positive the player is moved upward by -5. -/
theorem C5_jump_counter_machine (s : Js.GState) :
    (0 ≤ s.jump_counter → 0 ≤ (Js.mainTick s).jump_counter) ∧
    (Js.triggerB s = true → Js.jcSet s = 15) ∧
    (Js.triggerB s = true →
      (Js.mainTick s).jump_counter = if Js.yDiff s = 0 then 0 else 14) ∧
    (Js.triggerB s = false → 0 < s.jump_counter →
      (Js.mainTick s).jump_counter =
        if Js.yDiff s = 0 then 0 else s.jump_counter - 1) ∧
    (Js.triggerB s = false → s.jump_counter = 0 →
      (Js.mainTick s).jump_counter = 0) ∧
    (Js.jcSet s = 15 → s.jump_counter = 15 ∨ Js.triggerB s = true) ∧
    (Js.triggerB s = true ↔
      (s.jumping && !s.jumping_previous) = true ∧ Js.groundOf s ≠ none) ∧
    (0 < Js.jcSet s → Js.jumpRes s =
      some (Js.move (Js.rectsAfterElevators s) s.player Axis.y (-5))) := by
  refine ⟨?_, ?_, ?_, ?_, ?_, ?_, ?_, ?_⟩
  · intro h
    show 0 ≤ Js.jcFinal s
    unfold Js.jcFinal Js.jcAfterDec Js.jcSet
    split_ifs <;> omega
  · intro h
    unfold Js.jcSet
    rw [if_pos h]
  · intro h
    have hset : Js.jcSet s = 15 := by
      unfold Js.jcSet
      rw [if_pos h]
    show Js.jcFinal s = _
    unfold Js.jcFinal Js.jcAfterDec
    rw [hset]
    norm_num
  · intro h h2
    have hset : Js.jcSet s = s.jump_counter := by
      unfold Js.jcSet
      rw [if_neg (by simp [h])]
    show Js.jcFinal s = _
    unfold Js.jcFinal Js.jcAfterDec
    rw [hset, if_pos h2]
    by_cases hy : Js.yDiff s = 0
    · simp only [hy, true_and, if_true]
      split_ifs <;> omega
    · simp [hy]
  · intro h h0
    have hset : Js.jcSet s = s.jump_counter := by
      unfold Js.jcSet
      rw [if_neg (by simp [h])]
    show Js.jcFinal s = _
    unfold Js.jcFinal Js.jcAfterDec
    rw [hset, h0]
    norm_num
  · intro h
    unfold Js.jcSet at h
    by_cases ht : Js.triggerB s = true
    · exact Or.inr ht
    · left
      rwa [if_neg ht] at h
  · simp [Js.triggerB, Bool.and_eq_true, Option.isSome_iff_ne_none,
      and_assoc]
  · intro h
    unfold Js.jumpRes
    rw [if_pos h]

/-- C5 witness: in the jump scene the trigger tick ends with the counter
at 14 (15 was set, one decrement already happened, no roof hit). -/
theorem C5_jump_counter_machine_witness :
    (Js.mainTick Js.jumpW0).jump_counter = 14 := by
  have ht : Js.triggerB Js.jumpW0 = true := by
    norm_num [Js.triggerB, Js.groundOf, Js.gravityRes, Js.move, Js.moveScan,
      Js.collision, Js.setCoord, Js.coord, Js.size, Js.left, Js.right,
      Js.top, Js.bottom, Js.tolerance, Js.round1, Js.jumpP, Js.jumpG,
      Js.jumpW0, List.enum, List.enumFrom]
  have h := (C5_jump_counter_machine Js.jumpW0).2.2.1 ht
  rw [h, if_neg]
  norm_num [Js.yDiff, Js.jumpRes, Js.jcSet, Js.triggerB,
    Js.rectsAfterElevators, Js.elevLoop, Js.elevIdxs, Js.groundOf,
    Js.gravityRes, Js.move, Js.moveScan, Js.collision, Js.setCoord,
    Js.coord, Js.size, Js.left, Js.right, Js.top, Js.bottom, Js.tolerance,
    Js.round1, Js.jumpP, Js.jumpG, Js.jumpW0, List.enum, List.enumFrom,
    List.range_succ, List.filter_append, List.filter_cons, List.filter_nil]

/-- C5 counterexample.  The jump scene: grounded player, rising edge of
the jump input at tick 1, free air above, jump intent held.  The trigger
tick sets the counter to 15 but decrements it in the same tick, so the
counter observed at the end of the trigger tick is 14, not 15, and it
reaches 0 at the end of the 14th subsequent tick (tick 15 overall) — not
after 15 subsequent ticks as the claim schedules. -/
theorem C5_claim_cex :
    (Js.ticksN 1 Js.jumpW0).jump_counter = 14 ∧
    (Js.ticksN 15 Js.jumpW0).jump_counter = 0 := by
  have h0 : Js.mainTick Js.jumpW0 = Js.jumpState (-5) 14 (some 1) := by
    norm_num [Js.mainTick, Js.runRects, Js.rectsAfterJump, Js.jumpRes, Js.jcFinal,
      Js.jcAfterDec, Js.jcSet, Js.triggerB, Js.yDiff, Js.rectsAfterElevators,
      Js.elevLoop, Js.elevIdxs, Js.groundOf, Js.gravityRes, Js.runningOf,
      Js.move, Js.moveScan, Js.collision, Js.setCoord, Js.coord, Js.size,
      Js.left, Js.right, Js.top, Js.bottom, Js.tolerance, Js.round1,
      Js.jumpP, Js.jumpG, Js.jumpW0, Js.jumpState,
      List.enum, List.enumFrom, List.range_succ, List.filter_append,
      List.filter_cons, List.filter_nil]
  have h1 : Js.mainTick (Js.jumpState (-5) 14 (some 1)) =
      Js.jumpState (-7) 13 none := by
    norm_num [Js.mainTick, Js.runRects, Js.rectsAfterJump, Js.jumpRes, Js.jcFinal,
      Js.jcAfterDec, Js.jcSet, Js.triggerB, Js.yDiff, Js.rectsAfterElevators,
      Js.elevLoop, Js.elevIdxs, Js.groundOf, Js.gravityRes, Js.runningOf,
      Js.move, Js.moveScan, Js.collision, Js.setCoord, Js.coord, Js.size,
      Js.left, Js.right, Js.top, Js.bottom, Js.tolerance, Js.round1,
      Js.jumpP, Js.jumpG, Js.jumpW0, Js.jumpState,
      List.enum, List.enumFrom, List.range_succ, List.filter_append,
      List.filter_cons, List.filter_nil]
  have h2 : Js.mainTick (Js.jumpState (-7) 13 none) =
      Js.jumpState (-9) 12 none := by
    norm_num [Js.mainTick, Js.runRects, Js.rectsAfterJump, Js.jumpRes, Js.jcFinal,
      Js.jcAfterDec, Js.jcSet, Js.triggerB, Js.yDiff, Js.rectsAfterElevators,
      Js.elevLoop, Js.elevIdxs, Js.groundOf, Js.gravityRes, Js.runningOf,
      Js.move, Js.moveScan, Js.collision, Js.setCoord, Js.coord, Js.size,
      Js.left, Js.right, Js.top, Js.bottom, Js.tolerance, Js.round1,
      Js.jumpP, Js.jumpG, Js.jumpW0, Js.jumpState,
      List.enum, List.enumFrom, List.range_succ, List.filter_append,
      List.filter_cons, List.filter_nil]
  have h3 : Js.mainTick (Js.jumpState (-9) 12 none) =
      Js.jumpState (-11) 11 none := by
    norm_num [Js.mainTick, Js.runRects, Js.rectsAfterJump, Js.jumpRes, Js.jcFinal,
      Js.jcAfterDec, Js.jcSet, Js.triggerB, Js.yDiff, Js.rectsAfterElevators,
      Js.elevLoop, Js.elevIdxs, Js.groundOf, Js.gravityRes, Js.runningOf,
      Js.move, Js.moveScan, Js.collision, Js.setCoord, Js.coord, Js.size,
      Js.left, Js.right, Js.top, Js.bottom, Js.tolerance, Js.round1,
      Js.jumpP, Js.jumpG, Js.jumpW0, Js.jumpState,
      List.enum, List.enumFrom, List.range_succ, List.filter_append,
      List.filter_cons, List.filter_nil]
  have h4 : Js.mainTick (Js.jumpState (-11) 11 none) =
      Js.jumpState (-13) 10 none := by
    norm_num [Js.mainTick, Js.runRects, Js.rectsAfterJump, Js.jumpRes, Js.jcFinal,
      Js.jcAfterDec, Js.jcSet, Js.triggerB, Js.yDiff, Js.rectsAfterElevators,
      Js.elevLoop, Js.elevIdxs, Js.groundOf, Js.gravityRes, Js.runningOf,
      Js.move, Js.moveScan, Js.collision, Js.setCoord, Js.coord, Js.size,
      Js.left, Js.right, Js.top, Js.bottom, Js.tolerance, Js.round1,
      Js.jumpP, Js.jumpG, Js.jumpW0, Js.jumpState,
      List.enum, List.enumFrom, List.range_succ, List.filter_append,
      List.filter_cons, List.filter_nil]
  have h5 : Js.mainTick (Js.jumpState (-13) 10 none) =
      Js.jumpState (-15) 9 none := by
    norm_num [Js.mainTick, Js.runRects, Js.rectsAfterJump, Js.jumpRes, Js.jcFinal,
      Js.jcAfterDec, Js.jcSet, Js.triggerB, Js.yDiff, Js.rectsAfterElevators,
      Js.elevLoop, Js.elevIdxs, Js.groundOf, Js.gravityRes, Js.runningOf,
      Js.move, Js.moveScan, Js.collision, Js.setCoord, Js.coord, Js.size,
      Js.left, Js.right, Js.top, Js.bottom, Js.tolerance, Js.round1,
      Js.jumpP, Js.jumpG, Js.jumpW0, Js.jumpState,
      List.enum, List.enumFrom, List.range_succ, List.filter_append,
      List.filter_cons, List.filter_nil]
  have h6 : Js.mainTick (Js.jumpState (-15) 9 none) =
      Js.jumpState (-17) 8 none := by
    norm_num [Js.mainTick, Js.runRects, Js.rectsAfterJump, Js.jumpRes, Js.jcFinal,
      Js.jcAfterDec, Js.jcSet, Js.triggerB, Js.yDiff, Js.rectsAfterElevators,
      Js.elevLoop, Js.elevIdxs, Js.groundOf, Js.gravityRes, Js.runningOf,
      Js.move, Js.moveScan, Js.collision, Js.setCoord, Js.coord, Js.size,
      Js.left, Js.right, Js.top, Js.bottom, Js.tolerance, Js.round1,
      Js.jumpP, Js.jumpG, Js.jumpW0, Js.jumpState,
      List.enum, List.enumFrom, List.range_succ, List.filter_append,
      List.filter_cons, List.filter_nil]
  have h7 : Js.mainTick (Js.jumpState (-17) 8 none) =
      Js.jumpState (-19) 7 none := by
    norm_num [Js.mainTick, Js.runRects, Js.rectsAfterJump, Js.jumpRes, Js.jcFinal,
      Js.jcAfterDec, Js.jcSet, Js.triggerB, Js.yDiff, Js.rectsAfterElevators,
      Js.elevLoop, Js.elevIdxs, Js.groundOf, Js.gravityRes, Js.runningOf,
      Js.move, Js.moveScan, Js.collision, Js.setCoord, Js.coord, Js.size,
      Js.left, Js.right, Js.top, Js.bottom, Js.tolerance, Js.round1,
      Js.jumpP, Js.jumpG, Js.jumpW0, Js.jumpState,
      List.enum, List.enumFrom, List.range_succ, List.filter_append,
      List.filter_cons, List.filter_nil]
  have h8 : Js.mainTick (Js.jumpState (-19) 7 none) =
      Js.jumpState (-21) 6 none := by
    norm_num [Js.mainTick, Js.runRects, Js.rectsAfterJump, Js.jumpRes, Js.jcFinal,
      Js.jcAfterDec, Js.jcSet, Js.triggerB, Js.yDiff, Js.rectsAfterElevators,
      Js.elevLoop, Js.elevIdxs, Js.groundOf, Js.gravityRes, Js.runningOf,
      Js.move, Js.moveScan, Js.collision, Js.setCoord, Js.coord, Js.size,
      Js.left, Js.right, Js.top, Js.bottom, Js.tolerance, Js.round1,
      Js.jumpP, Js.jumpG, Js.jumpW0, Js.jumpState,
      List.enum, List.enumFrom, List.range_succ, List.filter_append,
      List.filter_cons, List.filter_nil]
  have h9 : Js.mainTick (Js.jumpState (-21) 6 none) =
      Js.jumpState (-23) 5 none := by
    norm_num [Js.mainTick, Js.runRects, Js.rectsAfterJump, Js.jumpRes, Js.jcFinal,
      Js.jcAfterDec, Js.jcSet, Js.triggerB, Js.yDiff, Js.rectsAfterElevators,
      Js.elevLoop, Js.elevIdxs, Js.groundOf, Js.gravityRes, Js.runningOf,
      Js.move, Js.moveScan, Js.collision, Js.setCoord, Js.coord, Js.size,
      Js.left, Js.right, Js.top, Js.bottom, Js.tolerance, Js.round1,
      Js.jumpP, Js.jumpG, Js.jumpW0, Js.jumpState,
      List.enum, List.enumFrom, List.range_succ, List.filter_append,
      List.filter_cons, List.filter_nil]
  have h10 : Js.mainTick (Js.jumpState (-23) 5 none) =
      Js.jumpState (-25) 4 none := by
    norm_num [Js.mainTick, Js.runRects, Js.rectsAfterJump, Js.jumpRes, Js.jcFinal,
      Js.jcAfterDec, Js.jcSet, Js.triggerB, Js.yDiff, Js.rectsAfterElevators,
      Js.elevLoop, Js.elevIdxs, Js.groundOf, Js.gravityRes, Js.runningOf,
      Js.move, Js.moveScan, Js.collision, Js.setCoord, Js.coord, Js.size,
      Js.left, Js.right, Js.top, Js.bottom, Js.tolerance, Js.round1,
      Js.jumpP, Js.jumpG, Js.jumpW0, Js.jumpState,
      List.enum, List.enumFrom, List.range_succ, List.filter_append,
      List.filter_cons, List.filter_nil]
  have h11 : Js.mainTick (Js.jumpState (-25) 4 none) =
      Js.jumpState (-27) 3 none := by
    norm_num [Js.mainTick, Js.runRects, Js.rectsAfterJump, Js.jumpRes, Js.jcFinal,
      Js.jcAfterDec, Js.jcSet, Js.triggerB, Js.yDiff, Js.rectsAfterElevators,
      Js.elevLoop, Js.elevIdxs, Js.groundOf, Js.gravityRes, Js.runningOf,
      Js.move, Js.moveScan, Js.collision, Js.setCoord, Js.coord, Js.size,
      Js.left, Js.right, Js.top, Js.bottom, Js.tolerance, Js.round1,
      Js.jumpP, Js.jumpG, Js.jumpW0, Js.jumpState,
      List.enum, List.enumFrom, List.range_succ, List.filter_append,
      List.filter_cons, List.filter_nil]
  have h12 : Js.mainTick (Js.jumpState (-27) 3 none) =
      Js.jumpState (-29) 2 none := by
    norm_num [Js.mainTick, Js.runRects, Js.rectsAfterJump, Js.jumpRes, Js.jcFinal,
      Js.jcAfterDec, Js.jcSet, Js.triggerB, Js.yDiff, Js.rectsAfterElevators,
      Js.elevLoop, Js.elevIdxs, Js.groundOf, Js.gravityRes, Js.runningOf,
      Js.move, Js.moveScan, Js.collision, Js.setCoord, Js.coord, Js.size,
      Js.left, Js.right, Js.top, Js.bottom, Js.tolerance, Js.round1,
      Js.jumpP, Js.jumpG, Js.jumpW0, Js.jumpState,
      List.enum, List.enumFrom, List.range_succ, List.filter_append,
      List.filter_cons, List.filter_nil]
  have h13 : Js.mainTick (Js.jumpState (-29) 2 none) =
      Js.jumpState (-31) 1 none := by
    norm_num [Js.mainTick, Js.runRects, Js.rectsAfterJump, Js.jumpRes, Js.jcFinal,
      Js.jcAfterDec, Js.jcSet, Js.triggerB, Js.yDiff, Js.rectsAfterElevators,
      Js.elevLoop, Js.elevIdxs, Js.groundOf, Js.gravityRes, Js.runningOf,
      Js.move, Js.moveScan, Js.collision, Js.setCoord, Js.coord, Js.size,
      Js.left, Js.right, Js.top, Js.bottom, Js.tolerance, Js.round1,
      Js.jumpP, Js.jumpG, Js.jumpW0, Js.jumpState,
      List.enum, List.enumFrom, List.range_succ, List.filter_append,
      List.filter_cons, List.filter_nil]
  have h14 : Js.mainTick (Js.jumpState (-31) 1 none) =
      Js.jumpState (-33) 0 none := by
    norm_num [Js.mainTick, Js.runRects, Js.rectsAfterJump, Js.jumpRes, Js.jcFinal,
      Js.jcAfterDec, Js.jcSet, Js.triggerB, Js.yDiff, Js.rectsAfterElevators,
      Js.elevLoop, Js.elevIdxs, Js.groundOf, Js.gravityRes, Js.runningOf,
      Js.move, Js.moveScan, Js.collision, Js.setCoord, Js.coord, Js.size,
      Js.left, Js.right, Js.top, Js.bottom, Js.tolerance, Js.round1,
      Js.jumpP, Js.jumpG, Js.jumpW0, Js.jumpState,
      List.enum, List.enumFrom, List.range_succ, List.filter_append,
      List.filter_cons, List.filter_nil]
  refine ⟨?_, ?_⟩
  · show (Js.mainTick Js.jumpW0).jump_counter = 14
    rw [h0]
    rfl
  · show (Js.mainTick (Js.mainTick (Js.mainTick (Js.mainTick (Js.mainTick (Js.mainTick (Js.mainTick (Js.mainTick (Js.mainTick (Js.mainTick (Js.mainTick (Js.mainTick (Js.mainTick (Js.mainTick (Js.mainTick (Js.jumpW0)))))))))))))))).jump_counter = 0
    rw [h0, h1, h2, h3, h4, h5, h6, h7, h8, h9, h10, h11, h12, h13, h14]
    rfl

end Game
